import Mathlib

/-!
Shallow embedding of the single-file chat client `app.py`.

The script keeps a session state (`st.session_state.messages`,
`st.session_state.total_tokens`, `st.session_state.model`), appends the user
turn, builds a five-turn context window (`messages_for_api`), performs one
HTTP POST, branches on the status code, parses the JSON body, and on the
well-formed path commits an assistant turn together with the reported token
count. Each definition below names the lines of `app.py` it translates.
-/

namespace SonuChat

/-- One element of `st.session_state.messages`: a dict with a `role`, a
`content`, and (for assistant turns, lines 204-208) a `tokens` entry. -/
structure ChatTurn where
  role : String
  content : String
  tokens : Option Nat
deriving Repr, DecidableEq

/-- The mutable session state initialised at lines 50-55 of `app.py`. -/
structure SessionState where
  messages : List ChatTurn
  total_tokens : Nat
  model : String
deriving Repr, DecidableEq

/-- Initial session state (lines 50-55): empty history, zero token counter,
model id fixed to the string assigned at line 55. -/
def initial_session : SessionState :=
  { messages := [], total_tokens := 0, model := "openai/gpt-3.5-turbo" }

/-- The Clear Chat History button handler (lines 77-80): empties the message
list and zeroes the token counter. -/
def clear_chat_history (s : SessionState) : SessionState :=
  { s with messages := [], total_tokens := 0 }

/-- A `{role, content}` dict as built for the request body (lines 116-121). -/
structure ApiMessage where
  role : String
  content : String
deriving Repr, DecidableEq

/-- Lines 115-121: the context window. Python `msgs[-5:]` takes the last five
elements (all of them when the list is shorter), and the loop copies only the
`role` and `content` entries of each dict. -/
def messages_for_api (msgs : List ChatTurn) : List ApiMessage :=
  (msgs.drop (msgs.length - 5)).map (fun m => { role := m.role, content := m.content })

/-- The slice of a decoded choice object that the script reads:
`choices[i]['message']['content']` (line 187). `none` models a missing
`message` or `content` key, which raises `KeyError` in the script. -/
structure Choice where
  message_content : Option String
deriving Repr, DecidableEq

/-- The slice of the decoded 200 body that the script reads: the `choices`
key (line 186, `none` when absent) and `usage.total_tokens` (line 190,
`none` when absent). -/
structure ResponseData where
  choices : Option (List Choice)
  usage_total_tokens : Option Nat
deriving Repr, DecidableEq

/-- Outcome of the blocking `requests.post` call at lines 147-152: a raised
timeout, a raised connection error, or a response with a status code and a
body. `body = none` models a body `response.json()` cannot decode. -/
inductive HttpResult where
  | timeout
  | connectionError
  | response (status : Nat) (body : Option ResponseData)
deriving Repr, DecidableEq

/-- The terminal outcome the handler reaches for one user turn, one
constructor per display branch of lines 154-221. -/
inductive TurnOutcome where
  | authError
  | paymentRequired
  | rateLimited
  | apiError (status : Nat)
  | invalidJson
  | malformed
  | genericError
  | timedOut
  | connectionFailed
  | success (reply : String) (tokens : Nat)
deriving Repr, DecidableEq

/-- Whether an outcome is the success case. -/
def TurnOutcome.isSuccess : TurnOutcome → Bool
  | .success _ _ => true
  | _ => false

/-- Everything observable from one run of the chat-input handler: the state
left behind, the window sent to the API, the final text left in the message
placeholder (line 201), and the branch taken. -/
structure TurnResult where
  state : SessionState
  window : List ApiMessage
  displayed : Option String
  outcome : TurnOutcome
deriving Repr, DecidableEq

/-- Line 111: the submitted prompt is appended as a user turn. -/
def append_user (s : SessionState) (prompt : String) : SessionState :=
  { s with messages := s.messages ++ [{ role := "user", content := prompt, tokens := none }] }

/-- The chat-input handler, lines 109-221 of `app.py`: append the user turn
(line 111), build the window (lines 115-121), then branch on the HTTP
outcome (lines 154-221). Only the well-formed 200 branch (lines 186-208)
mutates the counter and appends an assistant turn; a missing
`message`/`content` key raises `KeyError`, caught by the generic
`except Exception` at line 220. -/
def run_turn (s : SessionState) (prompt : String) (r : HttpResult) : TurnResult :=
  let s1 := append_user s prompt
  let window := messages_for_api s1.messages
  match r with
  | .timeout => { state := s1, window := window, displayed := none, outcome := .timedOut }
  | .connectionError =>
      { state := s1, window := window, displayed := none, outcome := .connectionFailed }
  | .response status body =>
    if status = 401 then
      { state := s1, window := window, displayed := none, outcome := .authError }
    else if status = 402 then
      { state := s1, window := window, displayed := none, outcome := .paymentRequired }
    else if status = 429 then
      { state := s1, window := window, displayed := none, outcome := .rateLimited }
    else if status ≠ 200 then
      { state := s1, window := window, displayed := none, outcome := .apiError status }
    else
      match body with
      | none => { state := s1, window := window, displayed := none, outcome := .invalidJson }
      | some rd =>
        match rd.choices with
        | some (c :: _) =>
          match c.message_content with
          | some reply =>
            let tokens_used := rd.usage_total_tokens.getD 0
            let s2 : SessionState :=
              { s1 with
                total_tokens := s1.total_tokens + tokens_used,
                messages := s1.messages ++
                  [{ role := "assistant", content := reply, tokens := some tokens_used }] }
            { state := s2, window := window, displayed := some reply,
              outcome := .success reply tokens_used }
          | none =>
            { state := s1, window := window, displayed := none, outcome := .genericError }
        | _ => { state := s1, window := window, displayed := none, outcome := .malformed }

/-- Folding the handler over a whole interaction: one `(prompt, httpResult)`
pair per submitted user message. -/
def run_turns (s : SessionState) : List (String × HttpResult) → SessionState
  | [] => s
  | (p, r) :: rest => run_turns (run_turn s p r).state rest

/-- Sum of the `tokens` entries over the assistant turns of a history, the
quantity the sidebar counter is specified to track. -/
def assistant_token_sum (msgs : List ChatTurn) : Nat :=
  ((msgs.filter (fun m => m.role == "assistant")).map (fun m => m.tokens.getD 0)).sum

/-- The hard-coded fallback credential string from line 15 of `app.py`. -/
def fallback_api_key : String :=
  "s5k-or-v1-3f45082256522b517957798bd7ba0a5683bf98e527b5066bc6c24e099185621"

/-- Credential resolution, lines 9-15 of `app.py`. Line 11 reads `elif:`
with no condition (a slip); the evident precedence, also the one the rest of
the file and its comments assume, is: secrets store first, then the
environment variable loaded via dotenv, then the hard-coded fallback
string. -/
def resolve_api_key (secrets env : Option String) : Option String :=
  match secrets with
  | some k => some k
  | none =>
    match env with
    | some k => some k
    | none => some fallback_api_key

/-- Python truthiness of `API_KEY` as tested at lines 62 and 87: present and
non-empty. -/
def api_key_present (k : Option String) : Bool :=
  match k with
  | some s => !s.isEmpty
  | none => false

/-- Whether the handler reaches the HTTP call: the guard at lines 87-99
calls `st.stop()` when `API_KEY` is falsy, so the call is attempted exactly
when the resolved key is truthy. -/
def http_call_attempted (secrets env : Option String) : Bool :=
  api_key_present (resolve_api_key secrets env)

/-- Whether the missing-key error text of lines 88-98 is displayed. -/
def missing_key_message_shown (secrets env : Option String) : Bool :=
  !(api_key_present (resolve_api_key secrets env))

/-- The window contract in the words of the spec: the last 5 turns of the
sequence (the whole sequence when it has fewer than 5), in the same relative
order, as role/content pairs with the `tokens` field dropped. Written
independently of `messages_for_api`, taking the last five via
reverse/take/reverse. -/
def spec_window (msgs : List ChatTurn) : List ApiMessage :=
  ((msgs.reverse.take 5).reverse).map (fun m => { role := m.role, content := m.content })

lemma assistant_token_sum_append (l1 l2 : List ChatTurn) :
    assistant_token_sum (l1 ++ l2) = assistant_token_sum l1 + assistant_token_sum l2 := by
  simp [assistant_token_sum, List.filter_append]

lemma assistant_token_sum_user (msgs : List ChatTurn) (p : String) :
    assistant_token_sum (msgs ++ [{ role := "user", content := p, tokens := none }])
      = assistant_token_sum msgs := by
  rw [assistant_token_sum_append]
  simp [assistant_token_sum, List.filter_cons]

lemma assistant_token_sum_assistant (msgs : List ChatTurn) (reply : String) (t : Nat) :
    assistant_token_sum (msgs ++ [{ role := "assistant", content := reply, tokens := some t }])
      = assistant_token_sum msgs + t := by
  rw [assistant_token_sum_append]
  simp [assistant_token_sum, List.filter_cons]

lemma run_turn_window (s : SessionState) (p : String) (r : HttpResult) :
    (run_turn s p r).window = messages_for_api (append_user s p).messages := by
  cases r with
  | timeout => rfl
  | connectionError => rfl
  | response status body =>
    simp only [run_turn]
    split <;> try rfl
    split <;> try rfl
    split <;> try rfl
    split <;> try rfl
    rcases body with _ | ⟨co, u⟩
    · rfl
    · rcases co with _ | ⟨_ | ⟨c, cs⟩⟩ <;> try rfl
      rcases c with ⟨_ | reply⟩ <;> rfl

lemma run_turn_cases (s : SessionState) (p : String) (r : HttpResult) :
    ((run_turn s p r).state = append_user s p
      ∧ (run_turn s p r).outcome.isSuccess = false)
    ∨ ∃ reply t,
        (run_turn s p r).outcome = .success reply t
        ∧ (run_turn s p r).state =
            { messages := (append_user s p).messages
                ++ [{ role := "assistant", content := reply, tokens := some t }],
              total_tokens := s.total_tokens + t,
              model := s.model } := by
  cases r with
  | timeout => exact Or.inl ⟨rfl, rfl⟩
  | connectionError => exact Or.inl ⟨rfl, rfl⟩
  | response status body =>
    simp only [run_turn]
    split
    · exact Or.inl ⟨rfl, rfl⟩
    split
    · exact Or.inl ⟨rfl, rfl⟩
    split
    · exact Or.inl ⟨rfl, rfl⟩
    split
    · exact Or.inl ⟨rfl, rfl⟩
    rcases body with _ | ⟨co, u⟩
    · exact Or.inl ⟨rfl, rfl⟩
    · rcases co with _ | ⟨_ | ⟨c, cs⟩⟩
      · exact Or.inl ⟨rfl, rfl⟩
      · exact Or.inl ⟨rfl, rfl⟩
      · rcases c with ⟨_ | reply⟩
        · exact Or.inl ⟨rfl, rfl⟩
        · refine Or.inr ⟨reply, (Option.getD u 0), rfl, ?_⟩
          simp [append_user]

lemma getLast?_drop_of_lt {α : Type} (l : List α) (k : Nat) (h : k < l.length) :
    (l.drop k).getLast? = l.getLast? := by
  induction l generalizing k with
  | nil => simp at h
  | cons a t ih =>
    cases k with
    | zero => simp
    | succ k =>
      have hk : k < t.length := by simpa using h
      rw [List.drop_succ_cons, ih k hk]
      cases t with
      | nil => simp at hk
      | cons b t2 => rw [List.getLast?_cons_cons]

/-- C1: for every failure outcome of a user turn (connect/timeout failure,
HTTP 401, 402, 429, any other non-200 status, a 200 body that cannot be
decoded, a 200 body classified as malformed, or the generic exception
branch), the session state after the turn equals the state after appending
only the user turn: no assistant turn is appended and `total_tokens` is
unchanged. -/
theorem failure_leaves_only_user_turn (s : SessionState) (p : String) (r : HttpResult)
    (h : (run_turn s p r).outcome.isSuccess = false) :
    (run_turn s p r).state = append_user s p := by
  rcases run_turn_cases s p r with ⟨h1, _⟩ | ⟨reply, t, ho, _⟩
  · exact h1
  · rw [ho] at h
    simp [TurnOutcome.isSuccess] at h

/-- Witness for C1 at a concrete 401 response. -/
theorem failure_leaves_only_user_turn_witness :
    (run_turn initial_session "hi" (.response 401 none)).outcome.isSuccess = false
    ∧ (run_turn initial_session "hi" (.response 401 none)).state
        = append_user initial_session "hi" :=
  ⟨rfl, failure_leaves_only_user_turn initial_session "hi" (.response 401 none) rfl⟩

/-- C2: after every sequence of turns run from the initial state,
`total_tokens` equals the sum of the `tokens` field over the assistant turns
of the history; moreover a turn only ever extends the history (the previous
history is a prefix of the new one), so turns are never reordered or
individually deleted by anything but the whole-session reset. -/
theorem total_tokens_is_assistant_token_sum :
    (∀ l : List (String × HttpResult),
      (run_turns initial_session l).total_tokens
        = assistant_token_sum (run_turns initial_session l).messages)
    ∧ (∀ (s : SessionState) (p : String) (r : HttpResult),
        s.messages <+: (run_turn s p r).state.messages) := by
  constructor
  · have key : ∀ (l : List (String × HttpResult)) (s : SessionState),
        s.total_tokens = assistant_token_sum s.messages →
        (run_turns s l).total_tokens = assistant_token_sum (run_turns s l).messages := by
      intro l
      induction l with
      | nil => intro s hs; exact hs
      | cons pr rest ih =>
        rcases pr with ⟨p, r⟩
        intro s hs
        show (run_turns (run_turn s p r).state rest).total_tokens
          = assistant_token_sum (run_turns (run_turn s p r).state rest).messages
        apply ih
        rcases run_turn_cases s p r with ⟨h1, _⟩ | ⟨reply, t, _, h2⟩
        · rw [h1]
          show s.total_tokens = assistant_token_sum
            (s.messages ++ [{ role := "user", content := p, tokens := none }])
          rw [assistant_token_sum_user, hs]
        · rw [h2]
          show s.total_tokens + t = assistant_token_sum
            ((s.messages ++ [{ role := "user", content := p, tokens := none }])
              ++ [{ role := "assistant", content := reply, tokens := some t }])
          rw [assistant_token_sum_assistant, assistant_token_sum_user, hs]
    exact fun l => key l initial_session rfl
  · intro s p r
    rcases run_turn_cases s p r with ⟨h1, _⟩ | ⟨reply, t, _, h2⟩
    · rw [h1]
      exact List.prefix_append _ _
    · rw [h2]
      show s.messages <+: (s.messages ++ _) ++ _
      rw [List.append_assoc]
      exact List.prefix_append _ _

/-- C3: the window sent to the inference client is the last 5 turns of the
given sequence (the whole sequence when shorter), in order, as role/content
pairs with the `tokens` field dropped, and it never exceeds 5 entries. -/
theorem messages_for_api_is_last_five (msgs : List ChatTurn) :
    messages_for_api msgs = spec_window msgs ∧ (messages_for_api msgs).length ≤ 5 := by
  constructor
  · unfold messages_for_api spec_window
    rw [List.take_reverse, List.reverse_reverse]
  · unfold messages_for_api
    rw [List.length_map, List.length_drop]
    omega

/-- C4, evaluation of the code at the failing input: with no secret in the
secrets store and no environment variable, the resolved key is the embedded
fallback string, so the missing-key message is not shown and the HTTP call
is attempted — the client does not fail closed. -/
theorem missing_credential_uses_fallback :
    resolve_api_key none none = some fallback_api_key
    ∧ http_call_attempted none none = true
    ∧ missing_key_message_shown none none = false :=
  ⟨rfl, rfl, rfl⟩

/-- C5 counterexample: a 200 response whose body has a non-empty `choices`
list but no `message.content` under `choices[0]` is missing the expected
reply field, yet it is classified by the generic exception branch, not by
the malformed-response branch. -/
theorem missing_reply_field_not_malformed :
    (run_turn initial_session "hi"
        (.response 200 (some { choices := some [{ message_content := none }],
                               usage_total_tokens := none }))).outcome
      = TurnOutcome.genericError
    ∧ TurnOutcome.genericError ≠ TurnOutcome.malformed := by
  refine ⟨rfl, by decide⟩

/-- C5 amended: a 200 response whose body lacks the `choices` key or has an
empty `choices` list is classified by the malformed-response branch (the one
that displays the body); a 200 response whose `choices[0]` exists but lacks
`message.content` is classified by the generic exception branch instead. -/
theorem malformed_only_for_missing_choices (s : SessionState) (p : String) (rd : ResponseData) :
    ((rd.choices = none ∨ rd.choices = some []) →
      (run_turn s p (.response 200 (some rd))).outcome = TurnOutcome.malformed)
    ∧ (∀ c cs, rd.choices = some (c :: cs) → c.message_content = none →
        (run_turn s p (.response 200 (some rd))).outcome = TurnOutcome.genericError) := by
  obtain ⟨co, u⟩ := rd
  constructor
  · rintro (h | h)
    · have h2 : co = none := h
      subst h2
      rfl
    · have h2 : co = some [] := h
      subst h2
      rfl
  · intro c cs h hm
    have h2 : co = some (c :: cs) := h
    subst h2
    obtain ⟨mc⟩ := c
    have hm2 : mc = none := hm
    subst hm2
    rfl

/-- Witness for C5 amended at a body with no `choices` key. -/
theorem malformed_only_for_missing_choices_witness :
    (run_turn initial_session "hi"
        (.response 200 (some { choices := none, usage_total_tokens := none }))).outcome
      = TurnOutcome.malformed :=
  (malformed_only_for_missing_choices initial_session "hi"
    { choices := none, usage_total_tokens := none }).1 (Or.inl rfl)

/-- C6: a well-formed 200 response with `usage.total_tokens` absent records
an assistant turn with `tokens = 0`, and `total_tokens` is unchanged
(increased by 0). -/
theorem absent_usage_records_zero_tokens (s : SessionState) (p : String)
    (rd : ResponseData) (c : Choice) (cs : List Choice) (reply : String)
    (hc : rd.choices = some (c :: cs)) (hm : c.message_content = some reply)
    (hu : rd.usage_total_tokens = none) :
    (run_turn s p (.response 200 (some rd))).state.messages
      = (append_user s p).messages
          ++ [{ role := "assistant", content := reply, tokens := some 0 }]
    ∧ (run_turn s p (.response 200 (some rd))).state.total_tokens = s.total_tokens := by
  obtain ⟨co, u⟩ := rd
  have hc2 : co = some (c :: cs) := hc
  have hu2 : u = none := hu
  subst hc2
  subst hu2
  obtain ⟨mc⟩ := c
  have hm2 : mc = some reply := hm
  subst hm2
  exact ⟨rfl, rfl⟩

/-- Witness for C6 at a concrete well-formed body without a usage field. -/
theorem absent_usage_records_zero_tokens_witness :
    (run_turn initial_session "hi"
        (.response 200 (some { choices := some [{ message_content := some "ok" }],
                               usage_total_tokens := none }))).state.messages
      = (append_user initial_session "hi").messages
          ++ [{ role := "assistant", content := "ok", tokens := some 0 }]
    ∧ (run_turn initial_session "hi"
        (.response 200 (some { choices := some [{ message_content := some "ok" }],
                               usage_total_tokens := none }))).state.total_tokens
      = initial_session.total_tokens :=
  absent_usage_records_zero_tokens initial_session "hi"
    { choices := some [{ message_content := some "ok" }], usage_total_tokens := none }
    { message_content := some "ok" } [] "ok" rfl rfl rfl

/-- C7: the Clear Chat History handler produces an empty turn sequence and a
zero token counter from every prior state. -/
theorem clear_chat_history_resets (s : SessionState) :
    (clear_chat_history s).messages = [] ∧ (clear_chat_history s).total_tokens = 0 :=
  ⟨rfl, rfl⟩

/-- C8: from an empty history, sending "Hello" puts exactly the pair
(user, "Hello") in the window; a 200 response with reply "Hi there" and
`usage.total_tokens = 7` leaves 2 turns, `total_tokens = 7`, and the final
displayed text "Hi there". -/
theorem hello_scenario :
    (run_turn initial_session "Hello"
        (.response 200 (some { choices := some [{ message_content := some "Hi there" }],
                               usage_total_tokens := some 7 }))).window
      = [{ role := "user", content := "Hello" }]
    ∧ (run_turn initial_session "Hello"
        (.response 200 (some { choices := some [{ message_content := some "Hi there" }],
                               usage_total_tokens := some 7 }))).state.messages.length = 2
    ∧ (run_turn initial_session "Hello"
        (.response 200 (some { choices := some [{ message_content := some "Hi there" }],
                               usage_total_tokens := some 7 }))).state.total_tokens = 7
    ∧ (run_turn initial_session "Hello"
        (.response 200 (some { choices := some [{ message_content := some "Hi there" }],
                               usage_total_tokens := some 7 }))).displayed = some "Hi there" :=
  ⟨rfl, rfl, rfl, rfl⟩

/-- C9: the reset handler leaves the selected model identifier unchanged, no
turn of the chat handler ever changes it, and initialisation fixes it to
"openai/gpt-3.5-turbo". -/
theorem model_id_never_changed (s : SessionState) (p : String) (r : HttpResult) :
    (clear_chat_history s).model = s.model
    ∧ (run_turn s p r).state.model = s.model
    ∧ initial_session.model = "openai/gpt-3.5-turbo" := by
  refine ⟨rfl, ?_, rfl⟩
  rcases run_turn_cases s p r with ⟨h1, _⟩ | ⟨reply, t, _, h2⟩
  · rw [h1]
    rfl
  · rw [h2]

/-- C10: the window of every turn is built from the history with the user
turn already appended, so it is non-empty and its last element is the
just-submitted user message. -/
theorem window_built_after_user_append (s : SessionState) (p : String) (r : HttpResult) :
    (run_turn s p r).window = messages_for_api (append_user s p).messages
    ∧ (run_turn s p r).window ≠ []
    ∧ (run_turn s p r).window.getLast? = some { role := "user", content := p } := by
  have hw := run_turn_window s p r
  have hlast : (messages_for_api (append_user s p).messages).getLast?
      = some { role := "user", content := p } := by
    unfold messages_for_api append_user
    rw [List.getLast?_map, getLast?_drop_of_lt _ _ (by simp; omega), List.getLast?_concat]
    rfl
  have hne : messages_for_api (append_user s p).messages ≠ [] := by
    intro h0
    rw [h0] at hlast
    simp at hlast
  exact ⟨hw, by rw [hw]; exact hne, by rw [hw]; exact hlast⟩

end SonuChat
